import Mathlib

/-!
Shallow embedding of the streamin-conv pipeline engine
(`src/commands/mod.rs`, `src/commands/ffmpeg.rs`, `src/commands/mp4fragment.rs`).

Modelling conventions:
* Rust `std::time::Duration` (nanosecond precision) is modelled as a
  nanosecond count.  Only whole microseconds ever enter a `Duration` in this
  program (`Duration::from_micros`, `from_secs`), and only `as_secs` /
  `as_micros` are read back.
* Rust `f64` values (`fps`, `bitrate`, the percentage arithmetic of
  `get_info`) are modelled as exact rationals.  Division by zero is the junk
  value `0` in `ℚ` where the `f64` computation would produce `NaN`/`inf`;
  every theorem below either assumes the divisor is nonzero or asserts only
  facts (such as "the result is not 100") that hold in both semantics.
* `usize`/`u64` are modelled as `Nat` with an explicit `< 2 ^ 64` bound in
  the string parsers, and `% 2 ^ 64` at the one truncating `as u64` cast.
* Code that can panic (slice out of range, `unwrap` of `None`,
  `unreachable!`) is modelled with an `Option`- or sum-typed result whose
  "none"/panic constructor marks the panic.
-/

namespace StreaminConv

deriving instance DecidableEq for Except

/-- Model of Rust `std::time::Duration`: a nanosecond count. -/
structure Duration where
  nanos : Nat
  deriving DecidableEq, Repr

/-- `Duration::from_secs`. -/
def Duration.fromSecs (s : Nat) : Duration := ⟨s * 1000000000⟩

/-- `Duration::from_micros`. -/
def Duration.fromMicros (u : Nat) : Duration := ⟨u * 1000⟩

/-- `Duration::as_secs`: whole seconds, truncating. -/
def Duration.asSecs (d : Duration) : Nat := d.nanos / 1000000000

/-- `Duration::as_micros`: whole microseconds, truncating. -/
def Duration.asMicros (d : Duration) : Nat := d.nanos / 1000

/-- `Duration::default()` / `Duration::from_secs(0)`. -/
def Duration.zero : Duration := ⟨0⟩

/-- `SessionError` from `src/commands/mod.rs`. -/
inductive SessionError where
  | alreadyStarted
  | invalidCommandConfig (msg : String)
  deriving DecidableEq, Repr

/-- The part of `MediaInfo` (`src/commands/mod.rs`) read by the engine:
`get_info` and `start` only ever read `media_info.duration`; the identifier,
codec and title fields are never consulted by the modelled operations and
are omitted. -/
structure MediaInfo where
  duration : Duration
  deriving DecidableEq, Repr

/-- `SessionInfoInt` from `src/commands/mod.rs`: the shared progress
snapshot. -/
structure SessionInfoInt where
  frame : Nat
  fps : ℚ
  bitrate : ℚ
  total_size : Nat
  time : Duration
  stdout : List String
  stderr : List String
  stage : Nat
  max_stages : Nat
  deriving DecidableEq, Repr

/-- `SessionDetail` from `src/commands/mod.rs`. -/
structure SessionDetail where
  frame : Nat
  fps : ℚ
  bitrate : ℚ
  total_size : Nat
  time : Duration
  length : Duration
  deriving DecidableEq, Repr

/-- `SessionLog` from `src/commands/mod.rs`. -/
structure SessionLog where
  stdout : List String
  stderr : List String
  deriving DecidableEq, Repr

/-- `SessionInfo` from `src/commands/mod.rs`: the serialized status record. -/
structure SessionInfo where
  percent_complete : ℚ
  stage : Nat
  max_stages : Nat
  detail : Option SessionDetail
  logs : SessionLog
  deriving DecidableEq, Repr

namespace Session

/-- The snapshot built by `Session::new` (`src/commands/mod.rs` lines
82-92). -/
def initInfo : SessionInfoInt :=
  { frame := 0
    fps := 0
    bitrate := 0
    total_size := 0
    time := Duration.zero
    stdout := []
    stderr := []
    stage := 0
    max_stages := 1 }

/-- `Session::get_info` (`src/commands/mod.rs` lines 101-136).  The `f64`
arithmetic is modelled over `ℚ`; `session_info.stage as f64 - 1.0` is the
rational `stage - 1` (never Nat-truncated). -/
def getInfo (s : SessionInfoInt) (m : MediaInfo) : SessionInfo :=
  let task_percent : ℚ :=
    (s.time.asSecs : ℚ) / (m.duration.asSecs : ℚ) * 100
  let overall_percent : ℚ :=
    ((s.stage : ℚ) - 1) / (s.max_stages : ℚ) * 100
      + task_percent / (s.max_stages : ℚ)
  let detail : Option SessionDetail :=
    if s.bitrate > 0 then
      some { frame := s.frame
             fps := s.fps
             bitrate := s.bitrate
             total_size := s.total_size
             time := s.time
             length := m.duration }
    else
      none
  { percent_complete := overall_percent
    stage := s.stage
    max_stages := s.max_stages
    detail := detail
    logs := { stdout := s.stdout, stderr := s.stderr } }

end Session

/-! ## Telemetry line parsing (stdout reader task, `src/commands/mod.rs` lines 209-222) -/

/-- Split a character list at every occurrence of `sep` (the behaviour of
Rust `str::split(sep)`, which yields `[""]` on the empty string). -/
def splitOnChar (sep : Char) : List Char → List (List Char)
  | [] => [[]]
  | c :: t =>
    let r := splitOnChar sep t
    if c = sep then [] :: r else (c :: r.headD []) :: r.tail

/-- Strip leading and trailing whitespace (Rust `str::trim` on the ASCII
whitespace that this program's input can contain). -/
def trimChars (l : List Char) : List Char :=
  ((l.dropWhile Char.isWhitespace).reverse.dropWhile Char.isWhitespace).reverse

/-- Value of a (non-empty) list of decimal digit characters. -/
def digitsVal (l : List Char) : Nat :=
  l.foldl (fun a c => a * 10 + (c.toNat - 48)) 0

/-- Model of Rust `str::parse::<usize>` / `parse::<u64>` (both 64-bit here):
an optional leading `+`, then one or more ASCII digits, and the value must
fit in 64 bits. -/
def parseNat64 (l : List Char) : Option Nat :=
  let d := match l with
    | '+' :: t => t
    | t => t
  if d ≠ [] ∧ d.all Char.isDigit ∧ digitsVal d < 2 ^ 64 then
    some (digitsVal d)
  else
    none

/-- Mantissa of a decimal literal: `d+`, `d+.d*` or `.d+` (digits on at
least one side of the optional dot). -/
def parseMantissa (l : List Char) : Option ℚ :=
  let ip := l.takeWhile (fun c => c ≠ '.')
  let fp := (l.dropWhile (fun c => c ≠ '.')).drop 1
  if ip.all Char.isDigit ∧ fp.all Char.isDigit ∧ (ip ≠ [] ∨ fp ≠ []) then
    some ((digitsVal ip : ℚ) + (digitsVal fp : ℚ) / (10 : ℚ) ^ fp.length)
  else
    none

/-- Exponent part of a decimal literal: optional sign then one or more
digits. -/
def parseExponent (l : List Char) : Option Int :=
  let (sgn, d) : Int × List Char := match l with
    | '+' :: t => (1, t)
    | '-' :: t => (-1, t)
    | t => (1, t)
  if d ≠ [] ∧ d.all Char.isDigit then some (sgn * digitsVal d) else none

/-- Model of Rust `str::parse::<f64>`, over exact rationals: a finite
decimal or scientific literal maps to its exact rational value (`f64`
rounding is not modelled, and the non-finite spellings `inf`/`NaN`, which
have no rational counterpart, are treated as unparseable; no claim below
exercises either divergence). -/
def parseF64 (l : List Char) : Option ℚ :=
  let (sgn, l) : ℚ × List Char := match l with
    | '+' :: t => (1, t)
    | '-' :: t => (-1, t)
    | t => (1, t)
  let mant := l.takeWhile (fun c => c ≠ 'e' ∧ c ≠ 'E')
  let rest := l.dropWhile (fun c => c ≠ 'e' ∧ c ≠ 'E')
  match parseMantissa mant with
  | none => none
  | some m =>
    match rest with
    | [] => some (sgn * m)
    | _ :: t =>
      match parseExponent t with
      | none => none
      | some e => some (sgn * m * (10 : ℚ) ^ e)

/-- The telemetry fields of the stdout reader's `local_buf`
(`src/commands/mod.rs` lines 186-196); the unused `stdout`/`stderr`/
`stage`/`max_stages` fields of that local `SessionInfoInt` are omitted. -/
structure Accum where
  frame : Nat
  fps : ℚ
  bitrate : ℚ
  total_size : Nat
  time : Duration
  deriving DecidableEq, Repr

/-- The initial `local_buf` (all fields zeroed). -/
def Accum.init : Accum :=
  { frame := 0, fps := 0, bitrate := 0, total_size := 0, time := Duration.zero }

/-- One iteration of the stdout reader's line match
(`src/commands/mod.rs` lines 210-222).  Returns `none` when the Rust code
panics: for a recognized `bitrate=` line whose value is shorter than the
7-byte unit suffix, `x[..x.len() - 7]` is an out-of-range slice.  Otherwise
returns the updated accumulator and `true` exactly when the line was
unrecognized and is pushed onto the diagnostic buffer (forcing a flush).
A line is its character content (`line : List Char` stands for the Rust
`String`); slicing is modelled per character, which agrees with Rust's byte
slicing on ASCII input, and no claim exercises multi-byte input. -/
def processLine (acc : Accum) (line : List Char) : Option (Accum × Bool) :=
  match splitOnChar '=' line with
  | [k, x] =>
    if k = "frame".toList then
      some ({ acc with frame := (parseNat64 x).getD acc.frame }, false)
    else if k = "fps".toList then
      some ({ acc with fps := (parseF64 x).getD acc.fps }, false)
    else if k = "bitrate".toList then
      if x.length < 7 then
        none
      else
        some ({ acc with
          bitrate :=
            (parseF64 (trimChars (x.take (x.length - 7)))).getD acc.bitrate }, false)
    else if k = "total_size".toList then
      some ({ acc with
        total_size := (parseNat64 (trimChars x)).getD acc.total_size }, false)
    else if k = "out_time_us".toList then
      some ({ acc with
        time := Duration.fromMicros
          ((parseNat64 x).getD (acc.time.asMicros % 2 ^ 64)) }, false)
    else
      some (acc, false)
  | _ => some (acc, true)

/-! ## Orchestrator (`Session::start` / `Session::spawn`, `src/commands/mod.rs`) -/

/-- What the background loop can observe of one stage: its
`tolerates-failure` flag (the `can_fail` field of the config that built it)
and the exit status its process will produce. -/
structure StageSpec where
  canFail : Bool
  exitCode : Nat
  deriving DecidableEq, Repr

/-- The background task of `Session::start` (`src/commands/mod.rs` lines
157-166) together with the exit-status handling of `Session::spawn` (lines
249-256): for each command in order the stage counter is incremented and
the process is spawned and awaited; its exit status is only printed
(`println!("child status was: {}", status)`), never tested, and the
`can_fail` flag is never consulted, so the loop body is unconditional.
After the loop, `time` is forced to `max_time`.  The second component
returned is the list of stages whose processes were spawned. -/
def runJob (maxTime : Duration) (stages : List StageSpec) (s : SessionInfoInt) :
    SessionInfoInt × List StageSpec :=
  let r := stages.foldl
    (fun (p : SessionInfoInt × List StageSpec) (st : StageSpec) =>
      ({ p.1 with stage := p.1.stage + 1 }, p.2 ++ [st]))
    (s, [])
  ({ r.1 with time := maxTime }, r.2)

/-- The reset performed at the start of every stage's stdout reader task
(`src/commands/mod.rs` lines 200-207): the five telemetry fields of the
shared snapshot are zeroed; `stdout`, `stderr`, `stage` and `max_stages`
are not touched. -/
def resetTelemetry (s : SessionInfoInt) : SessionInfoInt :=
  { s with
    frame := 0
    fps := 0
    bitrate := 0
    total_size := 0
    time := Duration.zero }

/-- A concrete process invocation: binary name and ordered argument list
(the modelled content of `tokio::process::Command`). -/
structure Cmd where
  program : String
  args : List String
  deriving DecidableEq, Repr

/-- Result of a `build`: a validation error propagated from `validate`, a
panic (an `unwrap`/`unreachable!` reached in the source), or a concrete
invocation. -/
inductive BuildResult where
  | err (e : SessionError)
  | panic
  | ok (c : Cmd)
  deriving DecidableEq, Repr

/-- Whether a build produced an invocation. -/
def BuildResult.isOk : BuildResult → Bool
  | BuildResult.ok _ => true
  | _ => false

/-- Model of Rust `Path::file_stem` for ordinary file paths: the last
component of the `/`-separated path, with the extension after the final
dot stripped (a leading dot is not an extension separator); `none` when
there is no such component.  Rust's treatment of `..` components is not
modelled; no claim exercises it. -/
def fileStem (p : String) : Option String :=
  match ((splitOnChar '/' p.toList).filter (fun c => c ≠ [])).getLast? with
  | Option.none => Option.none
  | some name =>
    let pre := (name.reverse.dropWhile (fun c => c ≠ '.')).drop 1
    if pre = [] then some (String.mk name) else some (String.mk pre.reverse)

namespace Ffmpeg

/-- `Encoder` from `src/commands/ffmpeg.rs`.  The encoder-name constants
(`X264` etc.) are plain strings. -/
inductive Encoder where
  | video (name : String)
  | audio (name : String)
  | subtitle (name : String)
  | none
  deriving DecidableEq, Repr

/-- `CodecOpts` from `src/commands/ffmpeg.rs`. -/
structure CodecOpts where
  encoder : Encoder
  bitrate : Int
  enabled : Bool
  crf : Int
  channels : Int
  colour_8_bit : Bool
  deriving DecidableEq, Repr

/-- `Config` from `src/commands/ffmpeg.rs`.  Paths are strings. -/
structure Config where
  video : CodecOpts
  audio : CodecOpts
  subtitle : CodecOpts
  file : String
  out_file : Option String
  tracks : List Int
  can_fail : Bool
  deriving DecidableEq, Repr

/-- `Config::validate` (`src/commands/ffmpeg.rs` lines 161-188): the three
encoder-kind checks in order, then the no-stream check, the
CRF-on-audio/subtitle check, and the bitrate/CRF-without-encoder check,
which the source performs for the video group only. -/
def Config.validate (c : Config) : Except SessionError Unit :=
  match c.video.encoder with
  | Encoder.audio _ | Encoder.subtitle _ =>
    Except.error (SessionError.invalidCommandConfig
      "video cannot have an audio or subtitle encoder")
  | Encoder.video _ | Encoder.none =>
    match c.audio.encoder with
    | Encoder.video _ | Encoder.subtitle _ =>
      Except.error (SessionError.invalidCommandConfig
        "audio cannot have an video or subtitle encoder")
    | Encoder.audio _ | Encoder.none =>
      match c.subtitle.encoder with
      | Encoder.audio _ | Encoder.video _ =>
        Except.error (SessionError.invalidCommandConfig
          "subtitle cannot have an audio or video encoder")
      | Encoder.subtitle _ | Encoder.none =>
        if ¬c.video.enabled ∧ ¬c.audio.enabled ∧ ¬c.subtitle.enabled then
          Except.error (SessionError.invalidCommandConfig "no streams are enabled")
        else if c.audio.crf > -1 ∨ c.subtitle.crf > -1 then
          Except.error (SessionError.invalidCommandConfig
            "audio and subtitles cannot have a crf")
        else if (c.video.bitrate > -1 ∨ c.video.crf > -1) ∧
            c.video.encoder = Encoder.none then
          Except.error (SessionError.invalidCommandConfig
            "bitrate and crf cannot be set without an encoder")
        else
          Except.ok ()

/-- The video-group arguments of `Config::build` (`src/commands/ffmpeg.rs`
lines 71-97): selector pair, then the bitrate, colour-format and CRF flags
in that order; `-vn` when disabled.  `none` models the `unreachable!()`
arm (an encoder of the wrong kind, impossible after `validate`). -/
def videoArgs (g : CodecOpts) : Option (List String) :=
  if g.enabled then
    (match g.encoder with
      | Encoder.video x => some x
      | Encoder.none => some "copy"
      | _ => Option.none).map (fun enc =>
      ["-c:v", enc]
        ++ (if g.bitrate > -1 then ["-b:v", toString g.bitrate] else [])
        ++ (if g.colour_8_bit then ["-vf", "format=yuv420p"] else [])
        ++ (if g.crf > -1 then ["-crf", toString g.crf] else []))
  else
    some ["-vn"]

/-- The audio-group arguments (`src/commands/ffmpeg.rs` lines 99-120):
selector pair, then the bitrate and channel-count flags in that order;
`-an` when disabled. -/
def audioArgs (g : CodecOpts) : Option (List String) :=
  if g.enabled then
    (match g.encoder with
      | Encoder.audio x => some x
      | Encoder.none => some "copy"
      | _ => Option.none).map (fun enc =>
      ["-c:a", enc]
        ++ (if g.bitrate > -1 then ["-b:a", toString g.bitrate] else [])
        ++ (if g.channels > -1 then ["-ac", toString g.channels] else []))
  else
    some ["-an"]

/-- The subtitle-group arguments (`src/commands/ffmpeg.rs` lines 122-133):
selector pair only; `-sn` when disabled. -/
def subtitleArgs (g : CodecOpts) : Option (List String) :=
  if g.enabled then
    (match g.encoder with
      | Encoder.subtitle x => some x
      | Encoder.none => some "copy"
      | _ => Option.none).map (fun enc => ["-c:s", enc])
  else
    some ["-sn"]

/-- The default output path of `Config::build` (`src/commands/ffmpeg.rs`
lines 140-155): temp dir, source stem, kind tag and first track index (0
when `tracks` is empty).  `std::env::temp_dir()` is the parameter `tmp`
and pushing a component joins with `/`.  `none` models the panic of
`file_stem().unwrap()`.  Because the source uses `unwrap_or` (eager, not
`unwrap_or_else`), this runs even when `out_file` is set. -/
def defaultOut (tmp : String) (c : Config) : Option String :=
  match fileStem c.file with
  | Option.none => Option.none
  | some stem =>
    let idx := c.tracks.headD 0
    let ending :=
      if c.video.enabled then "-split-vid-" ++ toString idx ++ ".mp4"
      else if c.audio.enabled then "-split-aud-" ++ toString idx ++ ".mp4"
      else "-split-sub-" ++ toString idx ++ ".vtt"
    some (tmp ++ "/" ++ stem ++ ending)

/-- `Config::build` (`src/commands/ffmpeg.rs` lines 59-159): validate
first, propagating the error; then the fixed preamble, the three group
blocks in order, one `-map 0:<idx>` pair per track index, and the resolved
output path last. -/
def Config.build (tmp : String) (c : Config) : BuildResult :=
  match c.validate with
  | Except.error e => BuildResult.err e
  | Except.ok _ =>
    match videoArgs c.video, audioArgs c.audio, subtitleArgs c.subtitle,
        defaultOut tmp c with
    | some va, some aa, some sa, some dflt =>
      let mapArgs := (c.tracks.map (fun t => ["-map", "0:" ++ toString t])).flatten
      let out := c.out_file.getD dflt
      BuildResult.ok
        { program := "ffmpeg"
          args := ["-i", c.file, "-y", "-progress", "-"]
            ++ va ++ aa ++ sa ++ mapArgs ++ [out] }
    | _, _, _, _ => BuildResult.panic

end Ffmpeg

namespace Mp4fragment

/-- `Config` from `src/commands/mp4fragment.rs`. -/
structure Config where
  file : String
  out_file : Option String
  can_fail : Bool
  deriving DecidableEq, Repr

/-- `Config::validate` (`src/commands/mp4fragment.rs` lines 32-37): fails
exactly when the input file does not exist.  The filesystem lookup
`self.file.exists()` is the parameter `fileExists`. -/
def Config.validate (fileExists : Bool) (_c : Config) : Except SessionError Unit :=
  if ¬fileExists then
    Except.error (SessionError.invalidCommandConfig "File does not exist")
  else
    Except.ok ()

/-- `Config::build` (`src/commands/mp4fragment.rs` lines 16-30): does NOT
call `validate`; builds `mp4fragment <file> <out>` unconditionally, with
the default output `<temp>/<stem>-f.mp4`. -/
def Config.build (tmp : String) (c : Config) : BuildResult :=
  match fileStem c.file with
  | Option.none => BuildResult.panic
  | some stem =>
    let out := c.out_file.getD (tmp ++ "/" ++ stem ++ "-f.mp4")
    BuildResult.ok { program := "mp4fragment", args := [c.file, out] }

end Mp4fragment

/-! ## Spec-side definitions (each one follows the spec's words, for
comparison with the definitions translated from the source) -/

/-- Modelled from the spec: the overall percentage of §3 — "stage-fraction
= elapsed-media-time / total-media-duration (0 if duration unknown);
overall-percent = ((current-stage - 1) / total-stages) * 100 +
(stage-fraction / total-stages) * 100".  The durations enter at full
(nanosecond) precision; a zero total duration stands for an unknown one,
and the rational convention `x / 0 = 0` gives that case's stated fraction
0. -/
def specOverallPercent (stage totalStages : Nat) (elapsed total : Duration) : ℚ :=
  let stageFraction : ℚ := (elapsed.nanos : ℚ) / (total.nanos : ℚ)
  ((stage : ℚ) - 1) / (totalStages : ℚ) * 100
    + stageFraction / (totalStages : ℚ) * 100

namespace Ffmpeg

/-- Whether an encoder value is an audio or a subtitle one. -/
def Encoder.isAudioOrSubtitle : Encoder → Bool
  | Encoder.audio _ => true
  | Encoder.subtitle _ => true
  | _ => false

/-- Whether an encoder value is a video or a subtitle one. -/
def Encoder.isVideoOrSubtitle : Encoder → Bool
  | Encoder.video _ => true
  | Encoder.subtitle _ => true
  | _ => false

/-- Whether an encoder value is an audio or a video one. -/
def Encoder.isAudioOrVideo : Encoder → Bool
  | Encoder.audio _ => true
  | Encoder.video _ => true
  | _ => false

/-- Modelled from the spec: the `validate` contract of §3 — each violated
invariant yields its distinct reported error, the checks running in the
source's order (kind mismatch per group, no stream enabled, CRF on a
non-video group, bitrate/CRF without an encoder); amended as the
counterexample forces: invariant 4 is enforced for the video group only,
so a bitrate on an encoder-less audio or subtitle group passes. -/
def specValidate (c : Config) : Except SessionError Unit :=
  if c.video.encoder.isAudioOrSubtitle then
    Except.error (SessionError.invalidCommandConfig
      "video cannot have an audio or subtitle encoder")
  else if c.audio.encoder.isVideoOrSubtitle then
    Except.error (SessionError.invalidCommandConfig
      "audio cannot have an video or subtitle encoder")
  else if c.subtitle.encoder.isAudioOrVideo then
    Except.error (SessionError.invalidCommandConfig
      "subtitle cannot have an audio or video encoder")
  else if ¬c.video.enabled ∧ ¬c.audio.enabled ∧ ¬c.subtitle.enabled then
    Except.error (SessionError.invalidCommandConfig "no streams are enabled")
  else if c.audio.crf > -1 ∨ c.subtitle.crf > -1 then
    Except.error (SessionError.invalidCommandConfig
      "audio and subtitles cannot have a crf")
  else if (c.video.bitrate > -1 ∨ c.video.crf > -1) ∧
      c.video.encoder = Encoder.none then
    Except.error (SessionError.invalidCommandConfig
      "bitrate and crf cannot be set without an encoder")
  else
    Except.ok ()

/-- Modelled from the spec: §4.2 — the codec selector of an enabled group
is "the encoder name or a literal pass-through marker if no encoder was
set". -/
def specSelector : Encoder → String
  | Encoder.video x => x
  | Encoder.audio x => x
  | Encoder.subtitle x => x
  | Encoder.none => "copy"

/-- Modelled from the spec: §4.2 — the video group's block: one codec
selector pair when enabled, followed by its optional bitrate,
colour-format and CRF flags in that fixed order, numbers as plain decimal
strings; the explicit drop-video flag when disabled. -/
def specVideoBlock (g : CodecOpts) : List String :=
  if g.enabled then
    ["-c:v", specSelector g.encoder]
      ++ (if g.bitrate > -1 then ["-b:v", toString g.bitrate] else [])
      ++ (if g.colour_8_bit then ["-vf", "format=yuv420p"] else [])
      ++ (if g.crf > -1 then ["-crf", toString g.crf] else [])
  else
    ["-vn"]

/-- Modelled from the spec: §4.2 — the audio group's block: one codec
selector pair when enabled, followed by its optional bitrate and
channel-count flags in that fixed order; the drop-audio flag when
disabled. -/
def specAudioBlock (g : CodecOpts) : List String :=
  if g.enabled then
    ["-c:a", specSelector g.encoder]
      ++ (if g.bitrate > -1 then ["-b:a", toString g.bitrate] else [])
      ++ (if g.channels > -1 then ["-ac", toString g.channels] else [])
  else
    ["-an"]

/-- Modelled from the spec: §4.2 — the subtitle group's block: one codec
selector pair when enabled; the drop-subtitle flag when disabled. -/
def specSubtitleBlock (g : CodecOpts) : List String :=
  if g.enabled then ["-c:s", specSelector g.encoder] else ["-sn"]

end Ffmpeg

/-! ## Percentage arithmetic -/

/-- The overall percentage as a function of its four scalar inputs, exactly
as `get_info` computes it (stage, stage count, elapsed whole seconds, total
whole seconds). -/
def percentQ (stage n ts ds : ℚ) : ℚ :=
  (stage - 1) / n * 100 + ts / ds * 100 / n

/-- The percentage `get_info` derives from a snapshot against a media
duration. -/
def pct (d : Duration) (s : SessionInfoInt) : ℚ :=
  percentQ (s.stage : ℚ) (s.max_stages : ℚ) (s.time.asSecs : ℚ) (d.asSecs : ℚ)

theorem getInfo_percent (s : SessionInfoInt) (m : MediaInfo) :
    (Session.getInfo s m).percent_complete = pct m.duration s := rfl

/-- The snapshot right after `start` recorded the stage count
(`src/commands/mod.rs` line 149) and before the background task ran. -/
def startSnapshot (n : Nat) : SessionInfoInt :=
  { Session.initInfo with max_stages := n }

theorem validate_eq_specValidate (c : Ffmpeg.Config) :
    Ffmpeg.Config.validate c = Ffmpeg.specValidate c := by
  obtain ⟨v, a, s, f, o, tr, cf⟩ := c
  obtain ⟨ve, vb, ven, vcr, vch, vco⟩ := v
  obtain ⟨ae, ab, aen, acr, ach, aco⟩ := a
  obtain ⟨se, sb, sen, scr, sch, sco⟩ := s
  cases ve <;> cases ae <;> cases se <;>
    simp [Ffmpeg.Config.validate, Ffmpeg.specValidate,
      Ffmpeg.Encoder.isAudioOrSubtitle, Ffmpeg.Encoder.isVideoOrSubtitle,
      Ffmpeg.Encoder.isAudioOrVideo]

theorem validate_ok_kinds (c : Ffmpeg.Config)
    (hv : Ffmpeg.Config.validate c = Except.ok ()) :
    c.video.encoder.isAudioOrSubtitle = false ∧
    c.audio.encoder.isVideoOrSubtitle = false ∧
    c.subtitle.encoder.isAudioOrVideo = false := by
  rw [validate_eq_specValidate] at hv
  unfold Ffmpeg.specValidate at hv
  split_ifs at hv with h1 h2 h3 h4 h5 h6
  exact ⟨by simpa using h1, by simpa using h2, by simpa using h3⟩

theorem videoArgs_spec (g : Ffmpeg.CodecOpts)
    (h : g.encoder.isAudioOrSubtitle = false) :
    Ffmpeg.videoArgs g = some (Ffmpeg.specVideoBlock g) := by
  obtain ⟨e, b, en, cr, ch, co⟩ := g
  cases e <;> cases en <;>
    simp_all [Ffmpeg.videoArgs, Ffmpeg.specVideoBlock, Ffmpeg.specSelector,
      Ffmpeg.Encoder.isAudioOrSubtitle]

theorem audioArgs_spec (g : Ffmpeg.CodecOpts)
    (h : g.encoder.isVideoOrSubtitle = false) :
    Ffmpeg.audioArgs g = some (Ffmpeg.specAudioBlock g) := by
  obtain ⟨e, b, en, cr, ch, co⟩ := g
  cases e <;> cases en <;>
    simp_all [Ffmpeg.audioArgs, Ffmpeg.specAudioBlock, Ffmpeg.specSelector,
      Ffmpeg.Encoder.isVideoOrSubtitle]

theorem subtitleArgs_spec (g : Ffmpeg.CodecOpts)
    (h : g.encoder.isAudioOrVideo = false) :
    Ffmpeg.subtitleArgs g = some (Ffmpeg.specSubtitleBlock g) := by
  obtain ⟨e, b, en, cr, ch, co⟩ := g
  cases e <;> cases en <;>
    simp_all [Ffmpeg.subtitleArgs, Ffmpeg.specSubtitleBlock, Ffmpeg.specSelector,
      Ffmpeg.Encoder.isAudioOrVideo]

/-! ## Claims -/

/-- A two-stage job whose first stage tolerates no failure yet exits with
status 1, and whose second stage exits 0. -/
def failingStages : List StageSpec := [⟨false, 1⟩, ⟨false, 0⟩]

/-- **C1** (code_bug).  The claim — a non-zero exit of a stage whose
`can_fail` flag is false aborts the job and no further stage's process is
spawned — is what the spec requires, but the orchestrator's loop never
consults exit statuses or `can_fail` (the status is only printed).
Evaluated at a two-stage job whose first non-tolerant stage exits 1: both
stages' processes are spawned, the stage counter reaches 2 and the final
forced write still happens. -/
theorem claim1_exit_status_never_aborts :
    (runJob (Duration.fromSecs 10) failingStages (startSnapshot 2)).2
      = failingStages ∧
    (runJob (Duration.fromSecs 10) failingStages (startSnapshot 2)).1.stage = 2 ∧
    (runJob (Duration.fromSecs 10) failingStages (startSnapshot 2)).1.time
      = Duration.fromSecs 10 := by
  refine ⟨?_, ?_, ?_⟩ <;>
    simp [runJob, failingStages, startSnapshot, Session.initInfo]

/-- **C4** (code_bug).  The claim — processing any `bitrate=` line never
fails, whatever the value string — is what the spec requires, but the
source slices `x[..x.len() - 7]`, which panics whenever the value is
shorter than the 7-byte unit suffix; ffmpeg's own `bitrate=N/A` line is
such a value.  The second conjunct checks the part of the claim the code
does satisfy: a 7-byte-or-longer unparseable value such as `garbage` keeps
the previously accumulated 128.0. -/
theorem claim4_short_bitrate_value_panics :
    processLine { Accum.init with bitrate := 128 } "bitrate=N/A".toList
      = Option.none ∧
    (processLine Accum.init "bitrate=128.0kbits/s".toList).bind
        (fun p => processLine p.1 "bitrate=garbage".toList)
      = some ({ Accum.init with bitrate := 128 }, false) := by
  have h1 : processLine Accum.init "bitrate=128.0kbits/s".toList
      = some ({ Accum.init with bitrate := 128 }, false) := by
    norm_num +decide [processLine, splitOnChar, parseF64, parseMantissa,
      parseNat64, trimChars, Accum.init,
      show digitsVal ['1', '2', '8'] = 128 from by decide,
      show digitsVal ['0'] = 0 from by decide]
  have h2 : processLine { Accum.init with bitrate := 128 } "bitrate=garbage".toList
      = some ({ Accum.init with bitrate := 128 }, false) := by
    simp +decide [processLine, splitOnChar, parseF64, parseMantissa,
      parseNat64, trimChars, Accum.init]
  refine ⟨?_, ?_⟩
  · simp +decide [processLine, splitOnChar]
  · rw [h1, Option.some_bind, h2]

/-- A group of codec options that is disabled and carries nothing. -/
def disabledOpts : Ffmpeg.CodecOpts :=
  { encoder := Ffmpeg.Encoder.none, bitrate := -1, enabled := false,
    crf := -1, channels := -1, colour_8_bit := false }

/-- An encoding config whose enabled audio group carries a bitrate but no
encoder (pass-through mode): this violates §3 invariant 4 for the audio
group. -/
def audioBitrateNoEncoder : Ffmpeg.Config :=
  { video := disabledOpts
    audio := { encoder := Ffmpeg.Encoder.none, bitrate := 256000,
               enabled := true, crf := -1, channels := 2,
               colour_8_bit := false }
    subtitle := disabledOpts
    file := "/media/in.mkv"
    out_file := Option.none
    tracks := [1]
    can_fail := false }

/-- **C5** (counterexample).  The claim demands the bitrate-without-encoder
error for each of the three groups; for the audio group the source never
checks it: an enabled audio group with bitrate 256000 and no encoder passes
`validate`, and `build` happily produces an invocation. -/
theorem claim5_counterexample :
    audioBitrateNoEncoder.audio.bitrate > -1 ∧
    audioBitrateNoEncoder.audio.encoder = Ffmpeg.Encoder.none ∧
    audioBitrateNoEncoder.audio.enabled = true ∧
    Ffmpeg.Config.validate audioBitrateNoEncoder = Except.ok () ∧
    (Ffmpeg.Config.build "/tmp" audioBitrateNoEncoder).isOk = true := by
  refine ⟨by decide, by decide, by decide, by decide, by decide⟩

/-- **C5** (amended).  `validate` returns exactly the specific error of the
first violated invariant, in the documented order, except that invariant 4
(bitrate/CRF without an encoder) is enforced for the video group only; and
whenever `validate` fails, `build` propagates that error instead of
producing an invocation. -/
theorem claim5_validate_refines_spec (c : Ffmpeg.Config) (tmp : String) :
    Ffmpeg.Config.validate c = Ffmpeg.specValidate c ∧
    (∀ e, Ffmpeg.Config.validate c = Except.error e →
      Ffmpeg.Config.build tmp c = BuildResult.err e) := by
  refine ⟨validate_eq_specValidate c, fun e he => ?_⟩
  simp [Ffmpeg.Config.build, he]

/-- An encoding config with all three groups disabled. -/
def noStreamsConfig : Ffmpeg.Config :=
  { video := disabledOpts
    audio := disabledOpts
    subtitle := disabledOpts
    file := "/media/in.mkv"
    out_file := Option.none
    tracks := []
    can_fail := false }

theorem claim5_witness :
    Ffmpeg.Config.validate noStreamsConfig = Ffmpeg.specValidate noStreamsConfig ∧
    Ffmpeg.Config.build "/tmp" noStreamsConfig
      = BuildResult.err (SessionError.invalidCommandConfig
          "no streams are enabled") :=
  ⟨(claim5_validate_refines_spec noStreamsConfig "/tmp").1,
   (claim5_validate_refines_spec noStreamsConfig "/tmp").2
     (SessionError.invalidCommandConfig "no streams are enabled") (by decide)⟩

/-- A snapshot one second into a single-stage job, where the process in
fact reported one and a half seconds. -/
def fractionalState : SessionInfoInt :=
  { Session.initInfo with
    stage := 1
    max_stages := 1
    time := Duration.fromMicros 1500000 }

/-- Two-second media. -/
def twoSecondMedia : MediaInfo := ⟨Duration.fromSecs 2⟩

/-- **C6** (counterexample).  The claimed formula divides the elapsed time
by the duration; the source divides `as_secs()` by `as_secs()`, truncating
both to whole seconds first.  At 1.5 of 2 seconds the code reads 50 percent
while the claimed formula reads 75. -/
theorem claim6_counterexample :
    (Session.getInfo fractionalState twoSecondMedia).percent_complete
      ≠ specOverallPercent fractionalState.stage fractionalState.max_stages
          fractionalState.time twoSecondMedia.duration := by
  norm_num [Session.getInfo, specOverallPercent, fractionalState,
    twoSecondMedia, Session.initInfo, Duration.asSecs, Duration.fromMicros,
    Duration.fromSecs]

/-- **C6** (amended).  `percent_complete` is a pure, deterministic function
of (current stage, stage count, elapsed time, total duration), equal to
`((stage - 1) / n) * 100 + ((elapsed_secs / total_secs) / n) * 100` where
both durations are first truncated to whole seconds. -/
theorem claim6_percent_pure_function (stage n : Nat) (t d : Duration)
    (s : SessionInfoInt) (m : MediaInfo) (h1 : s.stage = stage)
    (h2 : s.max_stages = n) (h3 : s.time = t) (h4 : m.duration = d) :
    (Session.getInfo s m).percent_complete
      = ((stage : ℚ) - 1) / (n : ℚ) * 100
        + ((t.asSecs : ℚ) / (d.asSecs : ℚ)) / (n : ℚ) * 100 := by
  subst h1 h2 h3 h4
  rw [getInfo_percent, pct, percentQ]
  ring

theorem claim6_witness :
    (Session.getInfo fractionalState twoSecondMedia).percent_complete
      = ((1 : ℚ) - 1) / ((1 : Nat) : ℚ) * 100
        + (((Duration.fromMicros 1500000).asSecs : ℚ)
            / ((Duration.fromSecs 2).asSecs : ℚ)) / ((1 : Nat) : ℚ) * 100 :=
  claim6_percent_pure_function 1 1 (Duration.fromMicros 1500000)
    (Duration.fromSecs 2) fractionalState twoSecondMedia rfl rfl rfl rfl

/-- **C7** (confirmed).  For every encoding config that passes `validate`
(and whose source path has a stem, so the default-output `unwrap` cannot
panic), `build` produces the `ffmpeg` invocation laid out exactly as the
spec describes: the fixed preamble, one codec-selector pair or drop flag
per group in video-audio-subtitle order with the optional flags in their
fixed order, one `-map 0:<idx>` pair per track index, and the resolved
output path last. -/
theorem claim7_build_layout (tmp : String) (c : Ffmpeg.Config)
    (hv : Ffmpeg.Config.validate c = Except.ok ())
    (hs : (fileStem c.file).isSome = true) :
    (Ffmpeg.defaultOut tmp c).isSome = true ∧
    Ffmpeg.Config.build tmp c = BuildResult.ok
      { program := "ffmpeg"
        args := ["-i", c.file, "-y", "-progress", "-"]
          ++ Ffmpeg.specVideoBlock c.video ++ Ffmpeg.specAudioBlock c.audio
          ++ Ffmpeg.specSubtitleBlock c.subtitle
          ++ (c.tracks.map (fun t => ["-map", "0:" ++ toString t])).flatten
          ++ [c.out_file.getD ((Ffmpeg.defaultOut tmp c).getD "")] } := by
  obtain ⟨hkv, hka, hks⟩ := validate_ok_kinds c hv
  obtain ⟨stem, hstem⟩ := Option.isSome_iff_exists.mp hs
  have hdo : (Ffmpeg.defaultOut tmp c).isSome = true := by
    simp [Ffmpeg.defaultOut, hstem]
  obtain ⟨dflt, hdflt⟩ := Option.isSome_iff_exists.mp hdo
  refine ⟨hdo, ?_⟩
  rw [Ffmpeg.Config.build]
  rw [hv, videoArgs_spec c.video hkv, audioArgs_spec c.audio hka,
    subtitleArgs_spec c.subtitle hks, hdflt]
  simp [hdflt]

/-- The video stage `exec_dash_conv` builds for a source needing a
transcode: x264 at CRF 19 with forced 8-bit colour, audio and subtitles
dropped. -/
def videoStageConfig : Ffmpeg.Config :=
  { video := { encoder := Ffmpeg.Encoder.video "libx264", bitrate := -1,
               enabled := true, crf := 19, channels := -1,
               colour_8_bit := true }
    audio := disabledOpts
    subtitle := disabledOpts
    file := "/media/Show.mkv"
    out_file := Option.none
    tracks := []
    can_fail := false }

theorem claim7_witness :
    (Ffmpeg.defaultOut "/tmp" videoStageConfig).isSome = true ∧
    Ffmpeg.Config.build "/tmp" videoStageConfig = BuildResult.ok
      { program := "ffmpeg"
        args := ["-i", videoStageConfig.file, "-y", "-progress", "-"]
          ++ Ffmpeg.specVideoBlock videoStageConfig.video
          ++ Ffmpeg.specAudioBlock videoStageConfig.audio
          ++ Ffmpeg.specSubtitleBlock videoStageConfig.subtitle
          ++ (videoStageConfig.tracks.map
              (fun t => ["-map", "0:" ++ toString t])).flatten
          ++ [videoStageConfig.out_file.getD
              ((Ffmpeg.defaultOut "/tmp" videoStageConfig).getD "")] } :=
  claim7_build_layout "/tmp" videoStageConfig (by decide) (by decide)

/-- A fragmenting config whose input file does not exist. -/
def missingInputFragment : Mp4fragment.Config :=
  { file := "/media/gone.mp4", out_file := Option.none, can_fail := false }

/-- **C8** (code_bug).  The claim — every variant's `build` calls
`validate` first and propagates its error — is the spec's §4.1 contract
and what the dead existence check in `mp4fragment` was written for, but
`mp4fragment::Config::build` never calls `validate`: for a config whose
input file does not exist, `validate` fails with "File does not exist"
while `build` still produces the invocation. -/
theorem claim8_fragment_build_skips_validation :
    Mp4fragment.Config.validate false missingInputFragment
      = Except.error (SessionError.invalidCommandConfig "File does not exist") ∧
    Mp4fragment.Config.build "/tmp" missingInputFragment
      = BuildResult.ok
          { program := "mp4fragment"
            args := ["/media/gone.mp4", "/tmp/gone-f.mp4"] } := by
  refine ⟨by decide, by decide⟩

/-- **C10** (confirmed).  The reset at the start of every stage's stdout
reader zeroes exactly the five telemetry fields of the shared snapshot,
leaves the log lines and the stage counters untouched, and since
`get_info`'s detail block is present exactly when the snapshot's bitrate
is positive, the detail block disappears at each stage boundary until the
new stage reports a positive bitrate. -/
theorem claim10_reset_fields_and_detail (s : SessionInfoInt) (m : MediaInfo) :
    (resetTelemetry s).frame = 0 ∧ (resetTelemetry s).fps = 0 ∧
    (resetTelemetry s).bitrate = 0 ∧ (resetTelemetry s).total_size = 0 ∧
    (resetTelemetry s).time = Duration.zero ∧
    (resetTelemetry s).stdout = s.stdout ∧
    (resetTelemetry s).stderr = s.stderr ∧
    (resetTelemetry s).stage = s.stage ∧
    (resetTelemetry s).max_stages = s.max_stages ∧
    (Session.getInfo (resetTelemetry s) m).detail = Option.none ∧
    ((Session.getInfo s m).detail.isSome = true ↔ s.bitrate > 0) := by
  refine ⟨rfl, rfl, rfl, rfl, rfl, rfl, rfl, rfl, rfl, ?_, ?_⟩
  · simp [Session.getInfo, resetTelemetry]
  · by_cases h : s.bitrate > 0 <;> simp [Session.getInfo, h]

end StreaminConv
